import Mathlib

/-!
Verification of the bearer-token lifecycle subsystem of the
`pusher/chatkit-server-go` SDK, as a shallow embedding in Lean 4.

The repository contains two generations of the token subsystem:

* package `chatkit` (`authenticator.go`): `NewChatkitToken`,
  `getGenericTokenClaims`, `signToken`, and the mutex-guarded
  `authenticator` cache with `getSUToken` / `authenticate`;
* package `chatkitServerGo` (`token.go`, client file): `NewChatkitSUToken`,
  `NewChatkitUserToken`, a `suTokenManager` cache, and the HTTP client with
  `do`, `NewChatkitServerClient` and `getColonSeperatedComponents`.

Modelling conventions:

* Go `time.Time` and `time.Duration` are both integer counts of
  nanoseconds (`GoTime`, `GoDuration`); `Time.Unix()` is floor division by
  1e9 (Go normalizes to `sec` + `nsec ∈ [0, 1e9)`), `Time.After` is strict
  `>`, `Time.Add` is `+`.  Every Go call to `time.Now()` becomes an
  explicit `Time` parameter of the embedded function (one parameter per
  textual `time.Now()` call site).
* `jwt.MapClaims` (a Go `map[string]interface{}`) is an association list
  with map-assignment semantics (`mapSet`); claim values are strings,
  integers or booleans, which are the only values this code stores.
  Go JSON-marshals a map with keys sorted byte-wise, which `jsonObject`
  reproduces.
* The external `dgrijalva/jwt-go` library call
  `jwt.NewWithClaims(jwt.SigningMethodHS256, claims).SignedString(key)`
  is a function `JwtSigner`; its interface returns `(string, error)`, so
  the authenticator operations are parametric in the signer, and the
  concrete model `jwtHS256SignedString` implements the actual pipeline
  (JOSE header, base64url of the sorted-key JSON claims, HMAC-SHA256)
  and never fails — in this repository the key is always a `[]byte`, the
  only case in which the library's `Sign` cannot return an error.
* Go errors (`error` values that may be `nil`) are `Option String`
  (`none` = `nil`); functions returning `(T, error)` return
  `T × Option String`.
* `sync.Mutex`: the lock in `getSUToken` / `getToken` serializes calls,
  so in this sequential embedding each call is a single atomic state
  transition on the `authenticator` / `suTokenManager` record.
-/

/-! ### Go time model -/

/-- Go `time.Time`, modelled as nanoseconds since the Unix epoch. -/
abbrev GoTime := Int

/-- Go `time.Duration`, nanoseconds. -/
abbrev GoDuration := Int

namespace GoTime

/-- Go `t.Unix()`: whole seconds since the epoch, rounding toward
negative infinity (Go stores `sec` plus `nsec ∈ [0, 1e9)`).  Lean's `/`
on `Int` rounds toward negative infinity for a positive divisor. -/
def unix (t : Int) : Int := t / 1000000000

/-- Go `t.After(u)`: strict `t > u`. -/
def after (t u : Int) : Bool := decide (u < t)

/-- Go `t.Add(d)`. -/
def add (t : Int) (d : Int) : Int := t + d

end GoTime

namespace GoDuration

/-- Go `time.Second` in nanoseconds. -/
def second : Int := 1000000000

/-- Go `time.Minute` in nanoseconds. -/
def minute : Int := 60000000000

/-- Go `time.Hour` in nanoseconds. -/
def hour : Int := 3600000000000

/-- Go `time.Hour * 24`, the fixed superuser-token lifetime. -/
def hour24 : Int := hour * 24

/-- Go `d.Seconds()`, which computes `float64(d) / 1e9`; modelled as the
exact rational (the float computation is exact for every whole-second
duration below 2^53 seconds, which covers all durations this code uses). -/
def seconds (d : Int) : Rat := (d : Rat) / 1000000000

end GoDuration

/-! ### Go strings and maps -/

/-- Go `strings.Split(s, sep)` for a one-character separator, on the
character list: splits around every occurrence of `sep`; the empty
string yields `[[]]` (Go returns `[""]`). -/
def goSplitChars (sep : Char) : List Char → List (List Char)
  | [] => [[]]
  | c :: rest =>
    if c = sep then [] :: goSplitChars sep rest
    else
      match goSplitChars sep rest with
      | [] => [[c]]
      | h :: t => (c :: h) :: t

/-- Go `strings.Split(s, sep)` for a one-character separator. -/
def goSplit (s : String) (sep : Char) : List String :=
  (goSplitChars sep s.data).map List.asString

/-- The values a claim of this code can hold: strings (`instance`, `iss`,
`sub` — Go stores `sub` as a `*string` in `NewChatkitToken`, and
`encoding/json` marshals a non-nil pointer as its pointee), 64-bit
integers (`iat`, `exp`) and booleans (`su`). -/
inductive ClaimValue where
  | str (s : String)
  | int (i : Int)
  | bool (b : Bool)
deriving DecidableEq, Repr

/-- `jwt.MapClaims`: a Go `map[string]interface{}` as an association
list whose keys are kept unique by `mapSet`. -/
abbrev ClaimsMap := List (String × ClaimValue)

/-- Go map assignment `m[k] = v`: replace the binding if the key is
present, otherwise add it. -/
def mapSet (m : ClaimsMap) (k : String) (v : ClaimValue) : ClaimsMap :=
  match m with
  | [] => [(k, v)]
  | (k', v') :: rest =>
    if k' = k then (k, v) :: rest else (k', v') :: mapSet rest k v

/-- Go map lookup `m[k]`. -/
def mapGet (m : ClaimsMap) (k : String) : Option ClaimValue :=
  match m with
  | [] => none
  | (k', v) :: rest => if k' = k then some v else mapGet rest k

/-! ### UTF-8 bytes and byte-wise string order -/

/-- Standard UTF-8 encoding of one code point (Go strings are byte
slices holding UTF-8; the Go source only feeds valid code points). -/
def utf8EncodeChar (c : Char) : List Nat :=
  let n := c.toNat
  if n < 128 then [n]
  else if n < 2048 then [192 + n / 64, 128 + n % 64]
  else if n < 65536 then [224 + n / 4096, 128 + n / 64 % 64, 128 + n % 64]
  else [240 + n / 262144, 128 + n / 4096 % 64, 128 + n / 64 % 64, 128 + n % 64]

/-- The UTF-8 bytes of a string, as Go's `[]byte(s)`. -/
def utf8Bytes (s : String) : List Nat :=
  s.data.flatMap utf8EncodeChar

/-- Lexicographic order on code-point lists.  Because UTF-8 preserves
lexicographic order, this is exactly Go's byte-wise `<` on strings,
which `encoding/json` uses to sort map keys. -/
def charListLt : List Char → List Char → Bool
  | [], [] => false
  | [], _ :: _ => true
  | _ :: _, [] => false
  | a :: as, b :: bs =>
    if a.toNat < b.toNat then true
    else if b.toNat < a.toNat then false
    else charListLt as bs

/-- Go's byte-wise `<` on strings. -/
def goStrLt (a b : String) : Bool := charListLt a.data b.data

/-! ### Go `encoding/json` for the claims map -/

/-- Lowercase hexadecimal digit. -/
def hexDigit (n : Nat) : Char :=
  "0123456789abcdef".data.getD n '0'

/-- Go `encoding/json` escaping of one character inside a string literal
(HTML escaping on, as in the default `json.Marshal`). -/
def jsonEscapeChar (c : Char) : List Char :=
  if c = '"' then ['\\', '"']
  else if c = '\\' then ['\\', '\\']
  else if c = '\n' then ['\\', 'n']
  else if c = '\r' then ['\\', 'r']
  else if c = '\t' then ['\\', 't']
  else if c.toNat < 32 then
    ['\\', 'u', '0', '0', hexDigit (c.toNat / 16), hexDigit (c.toNat % 16)]
  else if c = '<' then ['\\', 'u', '0', '0', '3', 'c']
  else if c = '>' then ['\\', 'u', '0', '0', '3', 'e']
  else if c = '&' then ['\\', 'u', '0', '0', '2', '6']
  else if c.toNat = 8232 then ['\\', 'u', '2', '0', '2', '8']
  else if c.toNat = 8233 then ['\\', 'u', '2', '0', '2', '9']
  else [c]

/-- Go `encoding/json` string literal. -/
def jsonString (s : String) : String :=
  "\"" ++ (s.data.flatMap jsonEscapeChar).asString ++ "\""

/-- JSON form of one claim value (`int64` prints in decimal, as Go). -/
def jsonClaimValue : ClaimValue → String
  | .str s => jsonString s
  | .int i => toString i
  | .bool b => if b then "true" else "false"

/-- Insert into a key-sorted association list (byte-wise key order). -/
def insertByKey (p : String × ClaimValue) :
    List (String × ClaimValue) → List (String × ClaimValue)
  | [] => [p]
  | q :: rest =>
    if goStrLt p.1 q.1 then p :: q :: rest else q :: insertByKey p rest

/-- Sort an association list by key, byte-wise, as Go's `encoding/json`
does before marshalling a map. -/
def sortByKey (m : ClaimsMap) : ClaimsMap :=
  m.foldr insertByKey []

/-- Go `json.Marshal` of a `map[string]interface{}` holding claim
values: keys sorted byte-wise, no spaces. -/
def jsonObject (m : ClaimsMap) : String :=
  "\x7b" ++
    String.intercalate ","
      ((sortByKey m).map fun p => jsonString p.1 ++ ":" ++ jsonClaimValue p.2) ++
  "\x7d"

/-! ### base64url (JWT segment encoding: `base64.URLEncoding`, `=` padding
stripped, as `jwt-go`'s `EncodeSegment`) -/

/-- The base64url alphabet. -/
def b64urlAlphabet : List Char :=
  "ABCDEFGHIJKLMNOPQRSTUVWXYZabcdefghijklmnopqrstuvwxyz0123456789-_".data

/-- One base64url digit. -/
def b64c (n : Nat) : Char := b64urlAlphabet.getD n 'A'

/-- Unpadded base64url of a byte list. -/
def base64urlEncode : List Nat → String
  | [] => ""
  | [b0] =>
    [b64c (b0 / 4), b64c (b0 % 4 * 16)].asString
  | [b0, b1] =>
    [b64c (b0 / 4), b64c (b0 % 4 * 16 + b1 / 16), b64c (b1 % 16 * 4)].asString
  | b0 :: b1 :: b2 :: rest =>
    [b64c (b0 / 4), b64c (b0 % 4 * 16 + b1 / 16),
     b64c (b1 % 16 * 4 + b2 / 64), b64c (b2 % 64)].asString
      ++ base64urlEncode rest

/-! ### SHA-256 and HMAC (the `crypto/sha256` / `crypto/hmac` primitives
behind `jwt.SigningMethodHS256`), on `Nat` bytes and 32-bit words -/

/-- Truncate to 32 bits. -/
def w32 (n : Nat) : Nat := n % 4294967296

/-- Truncate to a byte. -/
def w8 (n : Nat) : Nat := n % 256

/-- Rotate a 32-bit word right by `b` bits. -/
def rotr32 (b n : Nat) : Nat := w32 ((n >>> b) ||| (n <<< (32 - b)))

/-- SHA-256 Σ0. -/
def bSig0 (x : Nat) : Nat := rotr32 2 x ^^^ rotr32 13 x ^^^ rotr32 22 x

/-- SHA-256 Σ1. -/
def bSig1 (x : Nat) : Nat := rotr32 6 x ^^^ rotr32 11 x ^^^ rotr32 25 x

/-- SHA-256 σ0. -/
def sSig0 (x : Nat) : Nat := rotr32 7 x ^^^ rotr32 18 x ^^^ (x >>> 3)

/-- SHA-256 σ1. -/
def sSig1 (x : Nat) : Nat := rotr32 17 x ^^^ rotr32 19 x ^^^ (x >>> 10)

/-- SHA-256 Ch. -/
def sha256Ch (x y z : Nat) : Nat := (x &&& y) ^^^ ((x ^^^ 4294967295) &&& z)

/-- SHA-256 Maj. -/
def sha256Maj (x y z : Nat) : Nat := (x &&& y) ^^^ (x &&& z) ^^^ (y &&& z)

/-- SHA-256 round constants. -/
def sha256K : Array Nat := #[
  1116352408, 1899447441, 3049323471, 3921009573, 961987163,
  1508970993, 2453635748, 2870763221, 3624381080, 310598401,
  607225278, 1426881987, 1925078388, 2162078206, 2614888103,
  3248222580, 3835390401, 4022224774, 264347078, 604807628,
  770255983, 1249150122, 1555081692, 1996064986, 2554220882,
  2821834349, 2952996808, 3210313671, 3336571891, 3584528711,
  113926993, 338241895, 666307205, 773529912, 1294757372,
  1396182291, 1695183700, 1986661051, 2177026350, 2456956037,
  2730485921, 2820302411, 3259730800, 3345764771, 3516065817,
  3600352804, 4094571909, 275423344, 430227734, 506948616,
  659060556, 883997877, 958139571, 1322822218, 1537002063,
  1747873779, 1955562222, 2024104815, 2227730452, 2361852424,
  2428436474, 2756734187, 3204031479, 3329325298]

/-- SHA-256 initial hash state. -/
def sha256H0 : Array Nat := #[
  1779033703, 3144134277, 1013904242, 2773480762, 1359893119,
  2600822924, 528734635, 1541459225]

/-- Merkle–Damgård padding: append `0x80`, zeros, and the 64-bit
big-endian bit length, reaching a multiple of 64 bytes. -/
def sha256Pad (msg : List Nat) : List Nat :=
  let len := msg.length
  let bitLen := 8 * len
  let padZeros := (119 - len % 64) % 64
  msg ++ [0x80] ++ List.replicate padZeros 0 ++
    (List.range 8).map fun i => w8 (bitLen >>> ((7 - i) * 8))

/-- Big-endian 32-bit words from bytes (length a multiple of 4). -/
def bytesToWords : List Nat → List Nat
  | a :: b :: c :: d :: rest =>
    (a <<< 24 ||| b <<< 16 ||| c <<< 8 ||| d) :: bytesToWords rest
  | _ => []

/-- Big-endian bytes of 32-bit words. -/
def wordsToBytes (ws : List Nat) : List Nat :=
  ws.flatMap fun w => [w8 (w >>> 24), w8 (w >>> 16), w8 (w >>> 8), w8 w]

/-- Split a word list into 16-word blocks. -/
def toBlocks (ws : List Nat) : List (Array Nat) :=
  if _h : ws.length < 16 then []
  else (ws.take 16).toArray :: toBlocks (ws.drop 16)
termination_by ws.length
decreasing_by simp only [List.length_drop]; omega

/-- Extend a 16-word block to the 64-word message schedule. -/
def sha256Schedule (block : Array Nat) : Array Nat :=
  (List.range 48).foldl
    (fun w t =>
      let i := t + 16
      w.push (w32 (sSig1 (w.getD (i - 2) 0) + w.getD (i - 7) 0 +
                   sSig0 (w.getD (i - 15) 0) + w.getD (i - 16) 0)))
    block

/-- SHA-256 compression of one block into the running state. -/
def sha256Compress (h : Array Nat) (block : Array Nat) : Array Nat :=
  let w := sha256Schedule block
  let s := (List.range 64).foldl
    (fun (st : Array Nat) t =>
      let a := st.getD 0 0
      let b := st.getD 1 0
      let c := st.getD 2 0
      let d := st.getD 3 0
      let e := st.getD 4 0
      let f := st.getD 5 0
      let g := st.getD 6 0
      let hh := st.getD 7 0
      let t1 := w32 (hh + bSig1 e + sha256Ch e f g + sha256K.getD t 0 + w.getD t 0)
      let t2 := w32 (bSig0 a + sha256Maj a b c)
      #[w32 (t1 + t2), a, b, c, w32 (d + t1), e, f, g])
    h
  #[w32 (h.getD 0 0 + s.getD 0 0), w32 (h.getD 1 0 + s.getD 1 0),
    w32 (h.getD 2 0 + s.getD 2 0), w32 (h.getD 3 0 + s.getD 3 0),
    w32 (h.getD 4 0 + s.getD 4 0), w32 (h.getD 5 0 + s.getD 5 0),
    w32 (h.getD 6 0 + s.getD 6 0), w32 (h.getD 7 0 + s.getD 7 0)]

/-- SHA-256 of a byte list. -/
def sha256 (msg : List Nat) : List Nat :=
  wordsToBytes
    ((toBlocks (bytesToWords (sha256Pad msg))).foldl sha256Compress sha256H0).toList

/-- HMAC-SHA256 (`crypto/hmac` with a 64-byte block). -/
def hmacSha256 (key msg : List Nat) : List Nat :=
  let key := if 64 < key.length then sha256 key else key
  let key := key ++ List.replicate (64 - key.length) 0
  sha256 ((key.map fun b => b ^^^ 0x5c) ++
          sha256 ((key.map fun b => b ^^^ 0x36) ++ msg))

/-! ### The external `jwt-go` library at its interface -/

/-- The interface of `jwt.NewWithClaims(jwt.SigningMethodHS256, claims)
.SignedString([]byte(keySecret))`: from the key secret and the claim
set, a compact token string or an error.  The library's `Sign` may in
general return an error (for instance for a key that is not a
`[]byte`), so the error channel is part of the interface. -/
def JwtSigner : Type := String → ClaimsMap → String × Option String

/-- The JOSE header `jwt.NewWithClaims` installs for HS256, marshalled
by Go with sorted keys. -/
def jwtHeaderJSON : String :=
  jsonObject [("typ", .str "JWT"), ("alg", .str "HS256")]

/-- The concrete model of `SignedString` for HS256 with a `[]byte` key:
`base64url(header) ++ "." ++ base64url(claims)` signed with
HMAC-SHA256; never returns an error. -/
def jwtHS256SignedString : JwtSigner := fun keySecret jwtClaims =>
  let signingInput :=
    base64urlEncode (utf8Bytes jwtHeaderJSON) ++ "." ++
      base64urlEncode (utf8Bytes (jsonObject jwtClaims))
  (signingInput ++ "." ++
     base64urlEncode (hmacSha256 (utf8Bytes keySecret) (utf8Bytes signingInput)),
   none)

/-! ### Package `chatkit` (`authenticator.go`) -/

namespace Chatkit

open GoDuration

/-- `Token` of `authenticator.go`: access token, token type and expiry
in seconds (Go `float64`, modelled exactly as a rational). -/
structure Token where
  AccessToken : String
  TokenType : String
  ExpiresIn : Rat
deriving DecidableEq, Repr

/-- `ErrorBody` of `authenticator.go`. -/
structure ErrorBody where
  ErrorType : String
  ErrorDescription : String
  ErrorURI : String
deriving DecidableEq, Repr

/-- The untyped `Body` field of `AuthenticationResponse` (a Go empty
interface): this code stores either a `Token` or an `*ErrorBody` there. -/
inductive ResponseBody where
  | token (t : Token)
  | errorBody (e : ErrorBody)
deriving DecidableEq, Repr

/-- `AuthenticationResponse` of `authenticator.go`. -/
structure AuthenticationResponse where
  Status : Int
  Headers : List (String × String)
  Body : ResponseBody
deriving DecidableEq, Repr

/-- `getGenericTokenClaims` of `authenticator.go`: the generic claim
set `instance`, `iss`, `iat`, `exp`.  `timeNow` is the function's
`time.Now()` reading. -/
def getGenericTokenClaims (instanceID keyID : String)
    (expiryDuration : Int) (timeNow : Int) : ClaimsMap :=
  let tokenExpiry := GoTime.add timeNow expiryDuration
  [("instance", .str instanceID),
   ("iss", .str ("api_keys/" ++ keyID)),
   ("iat", .int (GoTime.unix timeNow)),
   ("exp", .int (GoTime.unix tokenExpiry))]

/-- `signToken` of `authenticator.go`: wraps the library signer
(parameter `lib`), propagating its error with a `""` token. -/
def signToken (lib : JwtSigner) (keySecret : String) (jwtClaims : ClaimsMap) :
    String × Option String :=
  match lib keySecret jwtClaims with
  | (_, some err) => ("", some err)
  | (tokenString, none) => (tokenString, none)

/-- The claim set `NewChatkitToken` passes to `signToken`: the generic
claims, then `jwtClaims["su"] = su` (always), then
`jwtClaims["sub"] = userID` when `userID != nil`. -/
def newChatkitTokenClaims (instanceID keyID : String) (userID : Option String)
    (su : Bool) (expiryDuration : Int) (timeNow : Int) : ClaimsMap :=
  let jwtClaims := getGenericTokenClaims instanceID keyID expiryDuration timeNow
  let jwtClaims := mapSet jwtClaims "su" (.bool su)
  match userID with
  | some uid => mapSet jwtClaims "sub" (.str uid)
  | none => jwtClaims

/-- `NewChatkitToken` of `authenticator.go`: build the claim set, sign
it, and wrap the result; on a signing error return the zero `Token`
and the error. -/
def NewChatkitToken (lib : JwtSigner) (instanceID keyID keySecret : String)
    (userID : Option String) (su : Bool) (expiryDuration : Int)
    (timeNow : Int) : Token × Option String :=
  match signToken lib keySecret
      (newChatkitTokenClaims instanceID keyID userID su expiryDuration timeNow) with
  | (_, some err) => (⟨"", "", 0⟩, some err)
  | (tokenString, none) =>
    (⟨tokenString, "bearer", GoDuration.seconds expiryDuration⟩, none)

/-- The `authenticator` struct of `authenticator.go` (the `sync.Mutex`
field is the serialization of calls, see the file header). -/
structure authenticator where
  tokenExpiry : Int
  token : String
  instanceID : String
  keyID : String
  keySecret : String
deriving DecidableEq, Repr

/-- `newAuthenticator` of `authenticator.go`: expiry one minute in the
past (so the first access regenerates), cached token the zero value
`""`.  `timeNow` is the constructor's `time.Now()` reading. -/
def newAuthenticator (instanceID keyID keySecret : String)
    (timeNow : Int) : authenticator :=
  { tokenExpiry := GoTime.add timeNow (-minute)
    token := ""
    instanceID := instanceID
    keyID := keyID
    keySecret := keySecret }

/-- `authenticator.authenticate` of `authenticator.go`: mint an
uncached per-user token with `su=false` and a 24-hour duration; wrap a
signing failure as a 500 response, success as a 200 response.  The
method only reads the receiver, so it returns it unchanged.
`claimsNow` is the `time.Now()` reading inside `getGenericTokenClaims`. -/
def authenticate (lib : JwtSigner) (auth : authenticator) (userID : String)
    (claimsNow : Int) : AuthenticationResponse × authenticator :=
  match NewChatkitToken lib auth.instanceID auth.keyID auth.keySecret
      (some userID) false (hour * 24) claimsNow with
  | (_, some _) =>
    ({ Status := 500
       Headers := []
       Body := .errorBody
         { ErrorType := "token_provider/token_signing_failure"
           ErrorDescription := "There was an error signing the token"
           ErrorURI := "" } }, auth)
  | (token, none) =>
    ({ Status := 200, Headers := [], Body := .token token }, auth)

/-- `authenticator.getSUToken` of `authenticator.go`: under the lock,
read `time.Now()` (`timeNow`); if it is after the cached expiry,
regenerate via `NewChatkitToken` with `nil` user, `su=true` and a
24-hour duration (`claimsNow` is the nested `time.Now()` reading),
returning the error and leaving the state untouched on failure, and
otherwise storing the new token and `timeNow + 24h` as the new expiry;
finally return the cached token. -/
def getSUToken (lib : JwtSigner) (auth : authenticator)
    (timeNow claimsNow : Int) : (String × Option String) × authenticator :=
  if GoTime.after timeNow auth.tokenExpiry then
    match NewChatkitToken lib auth.instanceID auth.keyID auth.keySecret
        none true (hour * 24) claimsNow with
    | (_, some errorBody) => (("", some errorBody), auth)
    | (tokenBody, none) =>
      let auth := { auth with
        tokenExpiry := GoTime.add timeNow (hour * 24)
        token := tokenBody.AccessToken }
      ((auth.token, none), auth)
  else
    ((auth.token, none), auth)

/-- The number of token generations (`NewChatkitToken` calls) a
`getSUToken` call executes, read off its branch condition: one when the
current time is after the cached expiry, zero otherwise. -/
def suRegenerations (auth : authenticator) (timeNow : Int) : Nat :=
  if GoTime.after timeNow auth.tokenExpiry then 1 else 0

/-- The `Token` carried by a 200 `AuthenticationResponse`, when present. -/
def responseToken? (r : AuthenticationResponse) : Option Token :=
  match r.Body with
  | .token t => some t
  | .errorBody _ => none

end Chatkit

/-! ### Package `chatkitServerGo` (`token.go` and the HTTP client file) -/

namespace ChatkitServerGo

open GoDuration

/-- `getGenericTokenClaims` of `token.go`: claims `app`, `iss`, `iat`,
`exp`, also returning the token expiry instant.  `timeNow` is the
function's `time.Now()` reading. -/
def getGenericTokenClaims (appID keyID : String)
    (expiryDuration : Int) (timeNow : Int) : ClaimsMap × Int :=
  let tokenExpiry := GoTime.add timeNow expiryDuration
  ([("app", .str appID),
    ("iss", .str ("api_keys/" ++ keyID)),
    ("iat", .int (GoTime.unix timeNow)),
    ("exp", .int (GoTime.unix tokenExpiry))],
   tokenExpiry)

/-- `signToken` of `token.go` (same wrapping as the `chatkit` one). -/
def signToken (lib : JwtSigner) (keySecret : String) (jwtClaims : ClaimsMap) :
    String × Option String :=
  match lib keySecret jwtClaims with
  | (_, some err) => ("", some err)
  | (tokenString, none) => (tokenString, none)

/-- The claim set `NewChatkitSUToken` signs: the generic claims plus
`su = true`. -/
def newChatkitSUTokenClaims (appID keyID : String)
    (expiryDuration : Int) (timeNow : Int) : ClaimsMap :=
  mapSet (getGenericTokenClaims appID keyID expiryDuration timeNow).1
    "su" (.bool true)

/-- The claim set `NewChatkitUserToken` signs: the generic claims plus
`sub = userID`. -/
def newChatkitUserTokenClaims (appID keyID userID : String)
    (expiryDuration : Int) (timeNow : Int) : ClaimsMap :=
  mapSet (getGenericTokenClaims appID keyID expiryDuration timeNow).1
    "sub" (.str userID)

/-- `NewChatkitSUToken` of `token.go`: returns the signed token string,
the expiry instant and the signing error. -/
def NewChatkitSUToken (lib : JwtSigner) (appID keyID keySecret : String)
    (expiryDuration : Int) (timeNow : Int) :
    String × Int × Option String :=
  let tokenExpiry := (getGenericTokenClaims appID keyID expiryDuration timeNow).2
  let r := signToken lib keySecret
    (newChatkitSUTokenClaims appID keyID expiryDuration timeNow)
  (r.1, tokenExpiry, r.2)

/-- `NewChatkitUserToken` of `token.go`. -/
def NewChatkitUserToken (lib : JwtSigner) (appID keyID keySecret userID : String)
    (expiryDuration : Int) (timeNow : Int) :
    String × Int × Option String :=
  let tokenExpiry := (getGenericTokenClaims appID keyID expiryDuration timeNow).2
  let r := signToken lib keySecret
    (newChatkitUserTokenClaims appID keyID userID expiryDuration timeNow)
  (r.1, tokenExpiry, r.2)

/-- The `suTokenManager` struct of `token.go` (mutex as above). -/
structure suTokenManager where
  tokenExpiry : Int
  token : String
  appID : String
  keyID : String
  keySecret : String
deriving DecidableEq, Repr

/-- `newTokenManager` of `token.go`: expiry one minute in the past,
token the zero value `""`.  `timeNow` is its `time.Now()` reading. -/
def newTokenManager (appID keyID keySecret : String)
    (timeNow : Int) : suTokenManager :=
  { tokenExpiry := GoTime.add timeNow (-minute)
    token := ""
    appID := appID
    keyID := keyID
    keySecret := keySecret }

/-- `suTokenManager.getToken` of `token.go`: under the lock, if
`time.Now()` (`timeNow`) is after the cached expiry, regenerate a
24-hour superuser token (`claimsNow` is the nested `time.Now()`
reading) and store both the token and the expiry instant the token
carries; return the error and leave the state untouched on failure;
finally return the cached token. -/
def getToken (lib : JwtSigner) (stm : suTokenManager)
    (timeNow claimsNow : Int) : (String × Option String) × suTokenManager :=
  if GoTime.after timeNow stm.tokenExpiry then
    match NewChatkitSUToken lib stm.appID stm.keyID stm.keySecret
        (hour * 24) claimsNow with
    | (_, _, some err) => (("", some err), stm)
    | (tokenString, tokenExpiry, none) =>
      let stm := { stm with tokenExpiry := tokenExpiry, token := tokenString }
      ((stm.token, none), stm)
  else
    ((stm.token, none), stm)

/-! #### The HTTP client file: configuration parsing, endpoints, `do` -/

/-- `getColonSeperatedComponents` of the client file: reject the empty
string, split on `':'`, and require exactly `expectedComponents`
components, none empty (the Go loop returns on the first empty
component; the error value is the same either way). -/
def getColonSeperatedComponents (s : String) (expectedComponents : Nat) :
    Except String (List String) :=
  if s = "" then .error "empty string"
  else
    let components := goSplit s ':'
    if components.length ≠ expectedComponents then .error "incorrect format"
    else if components.any (· = "") then .error "incorrect format"
    else .ok components

/-- `getInstanceIDComponents` of the client file:
`apiVersion:host:appID`. -/
def getInstanceIDComponents (instanceID : String) :
    Except String (String × String × String) :=
  match getColonSeperatedComponents instanceID 3 with
  | .error e => .error e
  | .ok components =>
    .ok (components.getD 0 "", components.getD 1 "", components.getD 2 "")

/-- `getKeyComponents` of the client file: `keyID:keySecret`. -/
def getKeyComponents (key : String) : Except String (String × String) :=
  match getColonSeperatedComponents key 2 with
  | .error e => .error e
  | .ok components => .ok (components.getD 0 "", components.getD 1 "")

/-- `CHATKIT_AUTH` of the client file. -/
def CHATKIT_AUTH : String := "chatkit_authorizer"

/-- `CHATKIT_SERVER` of the client file. -/
def CHATKIT_SERVER : String := "chatkit"

/-- `buildServiceEndpoint` of the client file. -/
def buildServiceEndpoint (host service apiVersion appID : String) : String :=
  "https://" ++ host ++ "/services/" ++ service ++ "/" ++ apiVersion ++ "/" ++ appID

/-- The `chatkitServerClient` struct of the client file (the embedded
`http.Client` with its TLS transport does no computation this
development reasons about and is omitted). -/
structure chatkitServerClient where
  tokenManager : suTokenManager
  authEndpoint : String
  serverEndpoint : String
deriving DecidableEq, Repr

/-- `newChatkitServerClient` of the client file. -/
def newChatkitServerClient (host apiVersion appID : String)
    (tokenManager : suTokenManager) : chatkitServerClient :=
  { tokenManager := tokenManager
    authEndpoint := buildServiceEndpoint host CHATKIT_AUTH apiVersion appID
    serverEndpoint := buildServiceEndpoint host CHATKIT_SERVER apiVersion appID }

/-- `NewChatkitServerClient` of the client file: parse the instance
locator and the key, build the token manager and the client; fail fast
on either parse error.  `timeNow` is `newTokenManager`'s `time.Now()`
reading. -/
def NewChatkitServerClient (instanceID key : String) (timeNow : Int) :
    Except String chatkitServerClient :=
  match getInstanceIDComponents instanceID with
  | .error e => .error e
  | .ok (apiVersion, host, appID) =>
    match getKeyComponents key with
    | .error e => .error e
    | .ok (keyID, keySecret) =>
      .ok (newChatkitServerClient host apiVersion appID
        (newTokenManager appID keyID keySecret timeNow))

/-- An HTTP response as `chatkitServerClient.do` sees it after
`csc.Client.Do` succeeds: the numeric `StatusCode`, the `Status` line
(Go sets it to `"<code> <reason>"`), and the fully received body (the
`ioutil.ReadAll` / stream-failure path is outside this model, which
treats the body as already delivered). -/
structure httpResponse where
  statusCode : Int
  status : String
  body : String
deriving DecidableEq, Repr

/-- `chatkitServerClient.do` of the client file (named `clientDo`
because `do` is reserved in Lean), after the transport has delivered
`resp`: a status of 300 or more becomes the error
`Status ++ ": " ++ body` and nothing is decoded; otherwise, when a
decode destination was supplied (`v != nil`, here `hasDest`), the body
is JSON-decoded into it (`dec` models `json.Decoder.Decode` for the
destination's type); otherwise no error and no decoded value.  The
returned pair is (value written to the destination, returned error). -/
def clientDo {α : Type} (dec : String → Except String α)
    (resp : httpResponse) (hasDest : Bool) : Option α × Option String :=
  if 300 ≤ resp.statusCode then
    (none, some (resp.status ++ ": " ++ resp.body))
  else if hasDest then
    match dec resp.body with
    | .ok a => (some a, none)
    | .error e => (none, some e)
  else
    (none, none)

end ChatkitServerGo

/-! ### Helper lemmas -/

/-- The concrete HS256 signer never reports an error (its Go
counterpart cannot, for a `[]byte` key). -/
theorem jwtHS256SignedString_err_none (ks : String) (c : ClaimsMap) :
    (jwtHS256SignedString ks c).2 = none := rfl

/-- With the concrete HS256 signer, `NewChatkitToken` never reports an
error. -/
theorem NewChatkitToken_jwt_err_none (i k ks : String) (u : Option String)
    (su : Bool) (d : Int) (n : Int) :
    (Chatkit.NewChatkitToken jwtHS256SignedString i k ks u su d n).2 = none := rfl

/-- On the regeneration branch with a successful signature, `getSUToken`
returns the fresh token and stores it together with `timeNow + 24h`. -/
theorem getSUToken_regen_eq (lib : JwtSigner) (auth : Chatkit.authenticator)
    (tn cn : Int) (h : GoTime.after tn auth.tokenExpiry = true)
    (hsig : (Chatkit.NewChatkitToken lib auth.instanceID auth.keyID auth.keySecret
        none true (GoDuration.hour * 24) cn).2 = none) :
    Chatkit.getSUToken lib auth tn cn =
      (((Chatkit.NewChatkitToken lib auth.instanceID auth.keyID auth.keySecret
          none true (GoDuration.hour * 24) cn).1.AccessToken, none),
       { auth with
          tokenExpiry := GoTime.add tn (GoDuration.hour * 24)
          token := (Chatkit.NewChatkitToken lib auth.instanceID auth.keyID
            auth.keySecret none true (GoDuration.hour * 24) cn).1.AccessToken }) := by
  rcases hN : Chatkit.NewChatkitToken lib auth.instanceID auth.keyID auth.keySecret
      none true (GoDuration.hour * 24) cn with ⟨tb, e⟩
  rw [hN] at hsig
  simp only at hsig
  subst hsig
  simp [Chatkit.getSUToken, h, hN]

/-- On the stale branch, `getSUToken` returns the cached token and
leaves the state unchanged. -/
theorem getSUToken_stale_eq (lib : JwtSigner) (auth : Chatkit.authenticator)
    (tn cn : Int) (h : GoTime.after tn auth.tokenExpiry = false) :
    Chatkit.getSUToken lib auth tn cn = ((auth.token, none), auth) := by
  simp [Chatkit.getSUToken, h]

/-- With the concrete signer, `getSUToken` returns exactly the token
cached in its post-state. -/
theorem getSUToken_jwt_returns_cached (auth : Chatkit.authenticator)
    (tn cn : Int) :
    (Chatkit.getSUToken jwtHS256SignedString auth tn cn).1 =
      (((Chatkit.getSUToken jwtHS256SignedString auth tn cn).2).token, none) := by
  by_cases h : GoTime.after tn auth.tokenExpiry = true
  · rw [getSUToken_regen_eq jwtHS256SignedString auth tn cn h
      (NewChatkitToken_jwt_err_none _ _ _ _ _ _ _)]
  · rw [getSUToken_stale_eq jwtHS256SignedString auth tn cn
      (by revert h; cases GoTime.after tn auth.tokenExpiry <;> simp)]

/-! ### The claims -/

/-- C1: a `getSUToken` call (serialized by the lock) at current time
`timeNow` regenerates exactly when `timeNow` is after the stored
expiry: it builds the claim set with `su = true` and a 24-hour
duration, signs it, and — when signing succeeds — stores the new token
string and the new expiry `timeNow + 24h` and returns the cached
token; when `timeNow` is not after the stored expiry it returns the
cached token and modifies no state. -/
theorem C1_getSUToken_lifecycle (lib : JwtSigner) (auth : Chatkit.authenticator)
    (timeNow claimsNow : Int) :
    (GoTime.after timeNow auth.tokenExpiry = true →
      (Chatkit.NewChatkitToken lib auth.instanceID auth.keyID auth.keySecret
          none true (GoDuration.hour * 24) claimsNow).2 = none →
      Chatkit.getSUToken lib auth timeNow claimsNow =
        (((Chatkit.NewChatkitToken lib auth.instanceID auth.keyID auth.keySecret
            none true (GoDuration.hour * 24) claimsNow).1.AccessToken, none),
         { auth with
            tokenExpiry := GoTime.add timeNow (GoDuration.hour * 24)
            token := (Chatkit.NewChatkitToken lib auth.instanceID auth.keyID
              auth.keySecret none true (GoDuration.hour * 24) claimsNow).1.AccessToken })) ∧
    (GoTime.after timeNow auth.tokenExpiry = false →
      Chatkit.getSUToken lib auth timeNow claimsNow = ((auth.token, none), auth)) := by
  constructor
  · intro h hsig
    exact getSUToken_regen_eq lib auth timeNow claimsNow h hsig
  · intro h
    exact getSUToken_stale_eq lib auth timeNow claimsNow h

/-- Witness for C1: a freshly constructed authenticator regenerates at
time 0 and caches expiry `0 + 24h`. -/
theorem C1_getSUToken_lifecycle_witness :
    Chatkit.getSUToken jwtHS256SignedString
        (Chatkit.newAuthenticator "abc123" "keyid" "keysecret" 0) 0 5 =
      (((Chatkit.NewChatkitToken jwtHS256SignedString "abc123" "keyid" "keysecret"
          none true (GoDuration.hour * 24) 5).1.AccessToken, none),
       { tokenExpiry := GoTime.add 0 (GoDuration.hour * 24)
         token := (Chatkit.NewChatkitToken jwtHS256SignedString "abc123" "keyid"
           "keysecret" none true (GoDuration.hour * 24) 5).1.AccessToken
         instanceID := "abc123"
         keyID := "keyid"
         keySecret := "keysecret" }) :=
  (C1_getSUToken_lifecycle jwtHS256SignedString
    (Chatkit.newAuthenticator "abc123" "keyid" "keysecret" 0) 0 5).1
    (by decide) (NewChatkitToken_jwt_err_none _ _ _ _ _ _ _)

/-- C2: for a fresh authenticator the first `getSUToken` call (at any
time not before construction) performs exactly one regeneration; a
second call at a time not after the stored expiry performs none,
returns the identical string and leaves the state unchanged; a call on
a state whose cached expiry lies in the past performs exactly one
regeneration. -/
theorem C2_cache_freshness (i k ks : String) (t0 now1 cn1 now2 cn2 now3 : Int)
    (a : Chatkit.authenticator) :
    (t0 ≤ now1 →
      Chatkit.suRegenerations (Chatkit.newAuthenticator i k ks t0) now1 = 1) ∧
    (GoTime.after now2
        ((Chatkit.getSUToken jwtHS256SignedString
          (Chatkit.newAuthenticator i k ks t0) now1 cn1).2).tokenExpiry = false →
      Chatkit.suRegenerations
          ((Chatkit.getSUToken jwtHS256SignedString
            (Chatkit.newAuthenticator i k ks t0) now1 cn1).2) now2 = 0 ∧
      Chatkit.getSUToken jwtHS256SignedString
          ((Chatkit.getSUToken jwtHS256SignedString
            (Chatkit.newAuthenticator i k ks t0) now1 cn1).2) now2 cn2 =
        (((Chatkit.getSUToken jwtHS256SignedString
            (Chatkit.newAuthenticator i k ks t0) now1 cn1).1.1, none),
         (Chatkit.getSUToken jwtHS256SignedString
            (Chatkit.newAuthenticator i k ks t0) now1 cn1).2)) ∧
    (GoTime.after now3 a.tokenExpiry = true →
      Chatkit.suRegenerations a now3 = 1) := by
  refine ⟨?_, ?_, ?_⟩
  · intro h
    have hb : GoTime.after now1 (Chatkit.newAuthenticator i k ks t0).tokenExpiry = true := by
      simp [Chatkit.newAuthenticator, GoTime.after, GoTime.add, GoDuration.minute]
      omega
    simp [Chatkit.suRegenerations, hb]
  · intro h
    refine ⟨by simp [Chatkit.suRegenerations, h], ?_⟩
    rw [getSUToken_stale_eq jwtHS256SignedString _ now2 cn2 h,
      getSUToken_jwt_returns_cached]
  · intro h
    simp [Chatkit.suRegenerations, h]

/-- Witness for C2: construction at time 0, first call at time 0,
second call one nanosecond later, and a state whose expiry 10 lies
before time 11. -/
theorem C2_cache_freshness_witness :
    Chatkit.suRegenerations (Chatkit.newAuthenticator "a" "k" "s" 0) 0 = 1 ∧
    (Chatkit.suRegenerations
        ((Chatkit.getSUToken jwtHS256SignedString
          (Chatkit.newAuthenticator "a" "k" "s" 0) 0 0).2) 1 = 0 ∧
      Chatkit.getSUToken jwtHS256SignedString
          ((Chatkit.getSUToken jwtHS256SignedString
            (Chatkit.newAuthenticator "a" "k" "s" 0) 0 0).2) 1 2 =
        (((Chatkit.getSUToken jwtHS256SignedString
            (Chatkit.newAuthenticator "a" "k" "s" 0) 0 0).1.1, none),
         (Chatkit.getSUToken jwtHS256SignedString
            (Chatkit.newAuthenticator "a" "k" "s" 0) 0 0).2)) ∧
    Chatkit.suRegenerations ⟨10, "t", "a", "k", "s"⟩ 11 = 1 :=
  ⟨(C2_cache_freshness "a" "k" "s" 0 0 0 1 2 11 ⟨10, "t", "a", "k", "s"⟩).1 (by decide),
   (C2_cache_freshness "a" "k" "s" 0 0 0 1 2 11 ⟨10, "t", "a", "k", "s"⟩).2.1 (by decide),
   (C2_cache_freshness "a" "k" "s" 0 0 0 1 2 11 ⟨10, "t", "a", "k", "s"⟩).2.2 (by decide)⟩

/-- C3 counterexample: `authenticate` for user `"alice"` signs
successfully (status 200), yet the claim set it signs —
`newChatkitTokenClaims` with `userID = some "alice"`, `su = false` —
contains the key `su` (with value `false`) alongside `sub`, because
`NewChatkitToken` executes `jwtClaims["su"] = su` unconditionally;
this refutes the claim that a per-user token's claim set has no `su`
key. -/
theorem C3_su_key_in_user_token :
    (Chatkit.authenticate jwtHS256SignedString
        (Chatkit.newAuthenticator "abc123" "keyid" "keysecret" 0) "alice" 0).1.Status = 200 ∧
    mapGet (Chatkit.newChatkitTokenClaims "abc123" "keyid" (some "alice") false
        (GoDuration.hour * 24) 0) "sub" = some (.str "alice") ∧
    mapGet (Chatkit.newChatkitTokenClaims "abc123" "keyid" (some "alice") false
        (GoDuration.hour * 24) 0) "su" = some (.bool false) := by
  refine ⟨rfl, ?_, ?_⟩ <;>
    simp [Chatkit.newChatkitTokenClaims, Chatkit.getGenericTokenClaims, mapSet, mapGet]

/-- C3 amended: a superuser claim set (`getSUToken` path, and
`NewChatkitSUToken` of `token.go`) contains `su = true` and no `sub`
key; a `NewChatkitUserToken` claim set contains `sub = userID` and no
`su` key; a claim set signed by `authenticate` contains `sub = userID`
together with an `su` key whose value is `false` — so `su = true` and
`sub` never occur together in tokens these operations produce, but the
`authenticate` path does carry an (always-false) `su` key. -/
theorem C3_claim_exclusivity_amended (instanceID keyID appID userID : String)
    (d : Int) (cn : Int) :
    (mapGet (Chatkit.newChatkitTokenClaims instanceID keyID none true d cn) "su"
        = some (.bool true) ∧
     mapGet (Chatkit.newChatkitTokenClaims instanceID keyID none true d cn) "sub"
        = none) ∧
    (mapGet (ChatkitServerGo.newChatkitSUTokenClaims appID keyID d cn) "su"
        = some (.bool true) ∧
     mapGet (ChatkitServerGo.newChatkitSUTokenClaims appID keyID d cn) "sub"
        = none) ∧
    (mapGet (ChatkitServerGo.newChatkitUserTokenClaims appID keyID userID d cn) "sub"
        = some (.str userID) ∧
     mapGet (ChatkitServerGo.newChatkitUserTokenClaims appID keyID userID d cn) "su"
        = none) ∧
    (mapGet (Chatkit.newChatkitTokenClaims instanceID keyID (some userID) false d cn) "sub"
        = some (.str userID) ∧
     mapGet (Chatkit.newChatkitTokenClaims instanceID keyID (some userID) false d cn) "su"
        = some (.bool false)) := by
  refine ⟨⟨?_, ?_⟩, ⟨?_, ?_⟩, ⟨?_, ?_⟩, ⟨?_, ?_⟩⟩ <;>
    simp [Chatkit.newChatkitTokenClaims, Chatkit.getGenericTokenClaims,
      ChatkitServerGo.newChatkitSUTokenClaims, ChatkitServerGo.newChatkitUserTokenClaims,
      ChatkitServerGo.getGenericTokenClaims, mapSet, mapGet]

/-- C4 counterexample: for the client credentials obtained from locator
`"v1:us:abc123"` and key `"keyid:keysecret"`, `authenticate("bob")`
returns a body whose `expires_in` is 86400 (the hard-coded 24-hour
duration), not 3600: `authenticate` takes no duration parameter. -/
theorem C4_expires_in_86400_not_3600 :
    (Chatkit.responseToken? (Chatkit.authenticate jwtHS256SignedString
        (Chatkit.newAuthenticator "abc123" "keyid" "keysecret" 0) "bob" 0).1).map
        Chatkit.Token.ExpiresIn = some 86400 ∧
    (86400 : Rat) ≠ 3600 := by
  constructor
  · have h : GoDuration.seconds (GoDuration.hour * 24) = 86400 := by
      norm_num [GoDuration.seconds, GoDuration.hour]
    simp [Chatkit.authenticate, Chatkit.NewChatkitToken, Chatkit.signToken,
      jwtHS256SignedString, Chatkit.responseToken?, h]
  · norm_num

/-- C4 amended: with the credentials split from locator
`"v1:us:abc123"` and key `"keyid:keysecret"` (the parser conjuncts),
`authenticate(userID)` returns status 200 with a bearer token whose
`expires_in` is 86400 (24 hours), and the claim set it signs carries
`sub = userID` and `iss = "api_keys/keyid"`. -/
theorem C4_authenticate_response_amended (t0 cn : Int) (userID : String) :
    ChatkitServerGo.getInstanceIDComponents "v1:us:abc123" = .ok ("v1", "us", "abc123") ∧
    ChatkitServerGo.getKeyComponents "keyid:keysecret" = .ok ("keyid", "keysecret") ∧
    (Chatkit.authenticate jwtHS256SignedString
        (Chatkit.newAuthenticator "abc123" "keyid" "keysecret" t0) userID cn).1.Status = 200 ∧
    ∃ tok : Chatkit.Token,
      Chatkit.responseToken? (Chatkit.authenticate jwtHS256SignedString
          (Chatkit.newAuthenticator "abc123" "keyid" "keysecret" t0) userID cn).1 = some tok ∧
      tok.TokenType = "bearer" ∧
      tok.ExpiresIn = 86400 ∧
      mapGet (Chatkit.newChatkitTokenClaims "abc123" "keyid" (some userID) false
          (GoDuration.hour * 24) cn) "sub" = some (.str userID) ∧
      mapGet (Chatkit.newChatkitTokenClaims "abc123" "keyid" (some userID) false
          (GoDuration.hour * 24) cn) "iss" = some (.str "api_keys/keyid") := by
  have hsec : GoDuration.seconds (GoDuration.hour * 24) = 86400 := by
    norm_num [GoDuration.seconds, GoDuration.hour]
  refine ⟨rfl, rfl, rfl, ?_⟩
  refine ⟨(Chatkit.NewChatkitToken jwtHS256SignedString "abc123" "keyid" "keysecret"
      (some userID) false (GoDuration.hour * 24) cn).1, ?_, rfl, hsec, ?_, ?_⟩
  · simp [Chatkit.authenticate, Chatkit.NewChatkitToken, Chatkit.signToken,
      jwtHS256SignedString, Chatkit.responseToken?, Chatkit.newAuthenticator]
  · simp [Chatkit.newChatkitTokenClaims, Chatkit.getGenericTokenClaims, mapSet, mapGet]
  · simp [Chatkit.newChatkitTokenClaims, Chatkit.getGenericTokenClaims, mapSet, mapGet]

/-- C5: in both claim builders, for a requested duration of `s` whole
seconds the encoded `exp` claim equals `iat + s`, and for positive `s`
consequently `exp > iat`. -/
theorem C5_exp_equals_iat_plus_duration (instanceID keyID appID : String)
    (s : Int) (now : Int) :
    (mapGet (Chatkit.getGenericTokenClaims instanceID keyID
        (s * GoDuration.second) now) "iat" = some (.int (GoTime.unix now)) ∧
     mapGet (Chatkit.getGenericTokenClaims instanceID keyID
        (s * GoDuration.second) now) "exp" = some (.int (GoTime.unix now + s))) ∧
    (mapGet (ChatkitServerGo.getGenericTokenClaims appID keyID
        (s * GoDuration.second) now).1 "iat" = some (.int (GoTime.unix now)) ∧
     mapGet (ChatkitServerGo.getGenericTokenClaims appID keyID
        (s * GoDuration.second) now).1 "exp" = some (.int (GoTime.unix now + s))) ∧
    (0 < s → GoTime.unix now < GoTime.unix now + s) := by
  have key : GoTime.unix (GoTime.add now (s * GoDuration.second)) = GoTime.unix now + s := by
    unfold GoTime.unix GoTime.add GoDuration.second
    exact Int.add_mul_ediv_right now s (by norm_num)
  refine ⟨⟨?_, ?_⟩, ⟨?_, ?_⟩, fun hs => by omega⟩ <;>
    simp [Chatkit.getGenericTokenClaims, ChatkitServerGo.getGenericTokenClaims,
      mapGet, key]

/-- Witness for C5: five seconds starting at 1234 nanoseconds. -/
theorem C5_exp_equals_iat_plus_duration_witness :
    mapGet (Chatkit.getGenericTokenClaims "i" "k" (5 * GoDuration.second) 1234) "exp"
      = some (.int (GoTime.unix 1234 + 5)) ∧
    GoTime.unix 1234 < GoTime.unix 1234 + 5 :=
  ⟨(C5_exp_equals_iat_plus_duration "i" "k" "a" 5 1234).1.2,
   (C5_exp_equals_iat_plus_duration "i" "k" "a" 5 1234).2.2 (by decide)⟩

/-- C6: token generation is deterministic and depends only on the
credentials, the claim-building instant, the duration and the su/sub
choice: two regenerating `getSUToken` runs on any two cache states that
agree on the credentials — regardless of their cached token, cached
expiry, or outer clock readings — produce byte-identical token strings
(both as stored and as returned). -/
theorem C6_token_generation_deterministic (a b : Chatkit.authenticator)
    (tnA tnB cn : Int)
    (h1 : a.instanceID = b.instanceID) (h2 : a.keyID = b.keyID)
    (h3 : a.keySecret = b.keySecret)
    (hA : GoTime.after tnA a.tokenExpiry = true)
    (hB : GoTime.after tnB b.tokenExpiry = true) :
    ((Chatkit.getSUToken jwtHS256SignedString a tnA cn).2).token
      = ((Chatkit.getSUToken jwtHS256SignedString b tnB cn).2).token ∧
    (Chatkit.getSUToken jwtHS256SignedString a tnA cn).1.1
      = (Chatkit.getSUToken jwtHS256SignedString b tnB cn).1.1 := by
  rw [getSUToken_regen_eq jwtHS256SignedString a tnA cn hA
      (NewChatkitToken_jwt_err_none _ _ _ _ _ _ _),
    getSUToken_regen_eq jwtHS256SignedString b tnB cn hB
      (NewChatkitToken_jwt_err_none _ _ _ _ _ _ _)]
  rw [h1, h2, h3]
  exact ⟨rfl, rfl⟩

/-- Witness for C6: two caches with different cached tokens and
expiries but the same credentials, queried at different times. -/
theorem C6_token_generation_deterministic_witness :
    ((Chatkit.getSUToken jwtHS256SignedString ⟨-100, "old", "i", "k", "s"⟩ 0 7).2).token
      = ((Chatkit.getSUToken jwtHS256SignedString ⟨-50, "other", "i", "k", "s"⟩ 1 7).2).token ∧
    (Chatkit.getSUToken jwtHS256SignedString ⟨-100, "old", "i", "k", "s"⟩ 0 7).1.1
      = (Chatkit.getSUToken jwtHS256SignedString ⟨-50, "other", "i", "k", "s"⟩ 1 7).1.1 :=
  C6_token_generation_deterministic ⟨-100, "old", "i", "k", "s"⟩
    ⟨-50, "other", "i", "k", "s"⟩ 0 1 7 rfl rfl rfl (by decide) (by decide)

/-- C7: `do` (here `clientDo`) converts any response with status at
least 300 into the error `Status ++ ": " ++ body` with nothing decoded;
a sub-300 response with no decode destination yields no error and no
decoded value; a sub-300 response with a destination is JSON-decoded
into it, propagating the decoder's result. -/
theorem C7_do_error_normalization {α : Type} (dec : String → Except String α)
    (resp : ChatkitServerGo.httpResponse) (hasDest : Bool) :
    (300 ≤ resp.statusCode →
      ChatkitServerGo.clientDo dec resp hasDest
        = (none, some (resp.status ++ ": " ++ resp.body))) ∧
    (resp.statusCode < 300 → hasDest = false →
      ChatkitServerGo.clientDo dec resp hasDest = (none, none)) ∧
    (resp.statusCode < 300 → hasDest = true →
      ChatkitServerGo.clientDo dec resp hasDest =
        match dec resp.body with
        | .ok a => (some a, none)
        | .error e => (none, some e)) := by
  refine ⟨?_, ?_, ?_⟩
  · intro h
    simp [ChatkitServerGo.clientDo, h]
  · intro h h'
    have hn : ¬ 300 ≤ resp.statusCode := by omega
    simp [ChatkitServerGo.clientDo, hn, h']
  · intro h h'
    have hn : ¬ 300 ≤ resp.statusCode := by omega
    simp [ChatkitServerGo.clientDo, hn, h']

/-- Witness for C7: a 404 response with body `"oops"` and no decode
destination. -/
theorem C7_do_error_normalization_witness :
    ChatkitServerGo.clientDo (fun _ => Except.ok (0 : Nat))
        ⟨404, "404 Not Found", "oops"⟩ false
      = (none, some "404 Not Found: oops") :=
  (C7_do_error_normalization (fun _ => Except.ok (0 : Nat))
    ⟨404, "404 Not Found", "oops"⟩ false).1 (by norm_num)

/-- Helper: `getColonSeperatedComponents` rejects exactly the strings
that do not split into the expected number of non-empty components,
with `"empty string"` reserved for the empty input. -/
theorem getColonSeperatedComponents_error (s : String) (n : Nat)
    (h : (goSplit s ':').length ≠ n ∨ "" ∈ goSplit s ':') :
    ChatkitServerGo.getColonSeperatedComponents s n
      = .error (if s = "" then "empty string" else "incorrect format") := by
  unfold ChatkitServerGo.getColonSeperatedComponents
  by_cases hs : s = ""
  · simp [hs]
  · simp only [hs, if_false]
    by_cases hl : (goSplit s ':').length = n
    · have hmem : "" ∈ goSplit s ':' := by
        rcases h with h | h
        · exact absurd hl h
        · exact h
      have hany : (goSplit s ':').any (· = "") = true := by
        simp only [List.any_eq_true]
        exact ⟨"", hmem, by simp⟩
      simp [hl, hany]
    · simp [hl]

/-- C8: client construction validates its configuration before any
token logic runs: a locator that does not split on `':'` into exactly
three non-empty components fails with the parser's descriptive error; a
key that does not split into exactly two non-empty components fails;
the locator `"badformat"` fails with `"incorrect format"` whatever the
key; and any successfully constructed client still holds an empty
cached token — construction never generates a token. -/
theorem C8_construction_validation (instanceID key : String) (timeNow : Int) :
    ((goSplit instanceID ':').length ≠ 3 ∨ "" ∈ goSplit instanceID ':' →
      ChatkitServerGo.NewChatkitServerClient instanceID key timeNow
        = .error (if instanceID = "" then "empty string" else "incorrect format")) ∧
    ((goSplit key ':').length ≠ 2 ∨ "" ∈ goSplit key ':' →
      ∃ e, ChatkitServerGo.NewChatkitServerClient instanceID key timeNow = .error e) ∧
    (ChatkitServerGo.NewChatkitServerClient "badformat" key timeNow
      = .error "incorrect format") ∧
    (∀ c, ChatkitServerGo.NewChatkitServerClient instanceID key timeNow = .ok c →
      c.tokenManager.token = "") := by
  refine ⟨?_, ?_, ?_, ?_⟩
  · intro h
    simp [ChatkitServerGo.NewChatkitServerClient, ChatkitServerGo.getInstanceIDComponents,
      getColonSeperatedComponents_error instanceID 3 h]
  · intro h
    rcases hI : ChatkitServerGo.getInstanceIDComponents instanceID with e | trip
    · exact ⟨e, by simp [ChatkitServerGo.NewChatkitServerClient, hI]⟩
    · refine ⟨if key = "" then "empty string" else "incorrect format", ?_⟩
      rcases trip with ⟨av, host, appID⟩
      simp [ChatkitServerGo.NewChatkitServerClient, hI, ChatkitServerGo.getKeyComponents,
        getColonSeperatedComponents_error key 2 h]
  · simp [ChatkitServerGo.NewChatkitServerClient, ChatkitServerGo.getInstanceIDComponents,
      getColonSeperatedComponents_error "badformat" 3 (Or.inl (by decide))]
  · intro c hc
    rcases hI : ChatkitServerGo.getInstanceIDComponents instanceID with e | ⟨av, host, appID⟩
    · simp [ChatkitServerGo.NewChatkitServerClient, hI] at hc
    · rcases hK : ChatkitServerGo.getKeyComponents key with e | ⟨kid, ks⟩
      · simp [ChatkitServerGo.NewChatkitServerClient, hI, hK] at hc
      · simp [ChatkitServerGo.NewChatkitServerClient, hI, hK] at hc
        rw [← hc]
        simp [ChatkitServerGo.newChatkitServerClient, ChatkitServerGo.newTokenManager]

/-- Witness for C8: the locator `"badformat"` (no colons) and a key
without colons. -/
theorem C8_construction_validation_witness :
    ChatkitServerGo.NewChatkitServerClient "badformat" "keyid:keysecret" 0
      = .error "incorrect format" ∧
    ∃ e, ChatkitServerGo.NewChatkitServerClient "v1:us:abc123" "nocolonkey" 0 = .error e :=
  ⟨(C8_construction_validation "badformat" "keyid:keysecret" 0).1 (Or.inl (by decide)),
   (C8_construction_validation "v1:us:abc123" "nocolonkey" 0).2.1 (Or.inl (by decide))⟩

/-- C9: the credential fields are immutable: `getSUToken` leaves
`instanceID`, `keyID` and `keySecret` unchanged in every state (its
state update touches only the cached token and expiry, which the
record update in the regeneration branch shows), and `authenticate`
leaves the whole state unchanged. -/
theorem C9_credentials_immutable (lib : JwtSigner) (auth : Chatkit.authenticator)
    (userID : String) (tn cn cn2 : Int) :
    ((Chatkit.getSUToken lib auth tn cn).2.instanceID = auth.instanceID ∧
     (Chatkit.getSUToken lib auth tn cn).2.keyID = auth.keyID ∧
     (Chatkit.getSUToken lib auth tn cn).2.keySecret = auth.keySecret) ∧
    (Chatkit.authenticate lib auth userID cn2).2 = auth := by
  constructor
  · unfold Chatkit.getSUToken
    split
    · split <;> simp
    · simp
  · unfold Chatkit.authenticate
    split <;> rfl

/-- C10: `getSUToken` (and the older `suTokenManager.getToken`) is
atomic on error: when the regeneration branch is taken and the signer
fails, the call returns the empty string with the signing error and
the cached token and expiry are exactly as before the call. -/
theorem C10_error_atomicity (lib : JwtSigner) (auth : Chatkit.authenticator)
    (stm : ChatkitServerGo.suTokenManager) (tn tn2 cn cn2 : Int) (e e' : String)
    (hA : GoTime.after tn auth.tokenExpiry = true)
    (hsigA : (Chatkit.NewChatkitToken lib auth.instanceID auth.keyID auth.keySecret
        none true (GoDuration.hour * 24) cn).2 = some e)
    (hB : GoTime.after tn2 stm.tokenExpiry = true)
    (hsigB : (ChatkitServerGo.NewChatkitSUToken lib stm.appID stm.keyID stm.keySecret
        (GoDuration.hour * 24) cn2).2.2 = some e') :
    Chatkit.getSUToken lib auth tn cn = (("", some e), auth) ∧
    ChatkitServerGo.getToken lib stm tn2 cn2 = (("", some e'), stm) := by
  constructor
  · rcases hN : Chatkit.NewChatkitToken lib auth.instanceID auth.keyID auth.keySecret
        none true (GoDuration.hour * 24) cn with ⟨tb, e2⟩
    rw [hN] at hsigA
    simp only at hsigA
    subst hsigA
    simp [Chatkit.getSUToken, hA, hN]
  · rcases hN : ChatkitServerGo.NewChatkitSUToken lib stm.appID stm.keyID stm.keySecret
        (GoDuration.hour * 24) cn2 with ⟨ts, te, e2⟩
    rw [hN] at hsigB
    simp only at hsigB
    subst hsigB
    simp [ChatkitServerGo.getToken, hB, hN]

/-- Witness for C10: a signer that always fails with `"boom"` on caches
whose expiry lies in the past. -/
theorem C10_error_atomicity_witness :
    Chatkit.getSUToken (fun _ _ => ("", some "boom")) ⟨-10, "t", "i", "k", "s"⟩ 0 0
      = (("", some "boom"), ⟨-10, "t", "i", "k", "s"⟩) ∧
    ChatkitServerGo.getToken (fun _ _ => ("", some "boom")) ⟨-10, "t", "a", "k", "s"⟩ 0 0
      = (("", some "boom"), ⟨-10, "t", "a", "k", "s"⟩) :=
  C10_error_atomicity (fun _ _ => ("", some "boom")) ⟨-10, "t", "i", "k", "s"⟩
    ⟨-10, "t", "a", "k", "s"⟩ 0 0 0 0 "boom" "boom" (by decide) rfl (by decide) rfl
